import Mathlib

set_option maxRecDepth 8000

namespace RosettaPad

/- ==========================================================================
   Generic controller data model, from `controllers/controller_interface.h`.
   Byte-sized fields are `Nat` (C `uint8_t`), motion values are `Int`
   (C `int16_t`).
   ========================================================================== -/

/-- Generic controller snapshot, a shallow embedding of `controller_state_t`
from `controllers/controller_interface.h`. -/
structure ControllerState where
  buttons : Nat
  left_stick_x : Nat
  left_stick_y : Nat
  right_stick_x : Nat
  right_stick_y : Nat
  left_trigger : Nat
  right_trigger : Nat
  accel_x : Int
  accel_y : Int
  accel_z : Int
  gyro_x : Int
  gyro_y : Int
  gyro_z : Int
  touch0_active : Bool
  touch0_x : Nat
  touch0_y : Nat
  touch1_active : Bool
  touch1_x : Nat
  touch1_y : Nat
  battery_level : Nat
  battery_charging : Bool
  battery_full : Bool
  deriving Repr, DecidableEq

/-- Generic output record, from `controller_output_t` in
`controllers/controller_interface.h`. -/
structure ControllerOutput where
  rumble_left : Nat
  rumble_right : Nat
  led_r : Nat
  led_g : Nat
  led_b : Nat
  player_leds : Nat
  player_brightness : Nat
  deriving Repr, DecidableEq

/-- Generic button IDs (`BTN_*` in `controller_interface.h`). -/
def BTN_SOUTH : Nat := 0

def BTN_EAST : Nat := 1

def BTN_WEST : Nat := 2

def BTN_NORTH : Nat := 3

def BTN_L1 : Nat := 4

def BTN_R1 : Nat := 5

def BTN_L2 : Nat := 6

def BTN_R2 : Nat := 7

def BTN_L3 : Nat := 8

def BTN_R3 : Nat := 9

def BTN_SELECT : Nat := 10

def BTN_START : Nat := 11

def BTN_HOME : Nat := 12

def BTN_TOUCHPAD : Nat := 13

def BTN_MUTE : Nat := 14

def BTN_DPAD_UP : Nat := 15

def BTN_DPAD_DOWN : Nat := 16

def BTN_DPAD_LEFT : Nat := 17

def BTN_DPAD_RIGHT : Nat := 18

/-- `CONTROLLER_BTN_PRESSED(state, btn)`: tests `buttons & (1 << btn)`. -/
def btnPressed (s : ControllerState) (b : Nat) : Bool :=
  s.buttons.testBit b

/- ==========================================================================
   DS3 input-report construction, from
   `console/ps3/ds3_emulation.c` (`ds3_build_input_report`).
   ========================================================================== -/

/-- `g_ds3_report` neutral template from `console/ps3/ds3_emulation.c`
lines 19-53 (49 bytes). -/
def g_ds3_report : List Nat :=
  [0x01, 0x00, 0x00, 0x00, 0x00, 0x00, 0x80, 0x80, 0x80, 0x80,
   0x00, 0x00, 0x00, 0x00, 0x00, 0x00, 0x00, 0x00,
   0x00, 0x00, 0x00, 0x00, 0x00, 0x00, 0x00, 0x00,
   0x00, 0x00, 0x00, 0x02, 0xEE, 0x12, 0x00, 0x00, 0x00, 0x00,
   0x33, 0x04, 0x77, 0x01,
   0xDE, 0x02, 0x35, 0x02, 0x08, 0x01, 0x94, 0x00, 0x02]

/-- Byte 2 of the DS3 input report (`btn1` in `ds3_build_input_report`):
select 0x01, L3 0x02, R3 0x04, start 0x08, dpad up 0x10, right 0x20,
down 0x40, left 0x80. -/
def ds3Btn1 (s : ControllerState) : Nat :=
  (if btnPressed s BTN_SELECT then 0x01 else 0) |||
  (if btnPressed s BTN_L3 then 0x02 else 0) |||
  (if btnPressed s BTN_R3 then 0x04 else 0) |||
  (if btnPressed s BTN_START then 0x08 else 0) |||
  (if btnPressed s BTN_DPAD_UP then 0x10 else 0) |||
  (if btnPressed s BTN_DPAD_RIGHT then 0x20 else 0) |||
  (if btnPressed s BTN_DPAD_DOWN then 0x40 else 0) |||
  (if btnPressed s BTN_DPAD_LEFT then 0x80 else 0)

/-- Byte 3 of the DS3 input report (`btn2` in `ds3_build_input_report`):
L2 0x01, R2 0x02, L1 0x04, R1 0x08, triangle 0x10, circle 0x20,
cross 0x40, square 0x80. -/
def ds3Btn2 (s : ControllerState) : Nat :=
  (if btnPressed s BTN_L2 then 0x01 else 0) |||
  (if btnPressed s BTN_R2 then 0x02 else 0) |||
  (if btnPressed s BTN_L1 then 0x04 else 0) |||
  (if btnPressed s BTN_R1 then 0x08 else 0) |||
  (if btnPressed s BTN_NORTH then 0x10 else 0) |||
  (if btnPressed s BTN_EAST then 0x20 else 0) |||
  (if btnPressed s BTN_SOUTH then 0x40 else 0) |||
  (if btnPressed s BTN_WEST then 0x80 else 0)

/-- Battery code computed in `ds3_build_input_report` (lines 300-319):
battery_full yields `DS3_BATTERY_CHARGED` (0xEF), then battery_charging
yields `DS3_BATTERY_CHARGING` (0xEE), else the level thresholds. -/
def ds3BatteryByte (s : ControllerState) : Nat :=
  if s.battery_full then 0xEF
  else if s.battery_charging then 0xEE
  else if s.battery_level ≤ 5 then 0x00
  else if s.battery_level ≤ 15 then 0x01
  else if s.battery_level ≤ 35 then 0x02
  else if s.battery_level ≤ 60 then 0x03
  else if s.battery_level ≤ 85 then 0x04
  else 0x05

/-- Clamp to the 10-bit range, as the four `if` chains in
`ds3_build_input_report` (lines 359-366). -/
def clamp1023 (x : Int) : Int :=
  if x < 0 then 0 else if x > 1023 then 1023 else x

/-- Low byte of a clamped motion value (`x & 0xFF`). -/
def motionLo (x : Int) : Nat :=
  x.toNat &&& 0xFF

/-- High byte of a clamped motion value (`(x >> 8) & 0xFF`). -/
def motionHi (x : Int) : Nat :=
  (x.toNat >>> 8) &&& 0xFF

/-- Pressure byte: 0xFF when the button is pressed, else 0. -/
def pressure (s : ControllerState) (b : Nat) : Nat :=
  if btnPressed s b then 0xFF else 0x00

/-- Shallow embedding of `ds3_build_input_report`
(`console/ps3/ds3_emulation.c` lines 242-385): the 49-byte DS3 input
report built from a controller snapshot.  The function memsets the buffer
to zero and then writes the listed offsets; every byte below is the final
value the C code leaves at that offset.  Motion conversion uses C
truncated division (`Int.tdiv`): accel axes are `512 + a/72`, gyro Z is
`498 + g/120`, each clamped to [0, 1023] and stored little-endian. -/
def ds3BuildInputReport (s : ControllerState) : List Nat :=
  [0x01,
   0x00,
   ds3Btn1 s,
   ds3Btn2 s,
   (if btnPressed s BTN_HOME then 0x01 else 0x00),
   0x00,
   s.left_stick_x,
   s.left_stick_y,
   s.right_stick_x,
   s.right_stick_y,
   pressure s BTN_DPAD_UP,
   pressure s BTN_DPAD_RIGHT,
   pressure s BTN_DPAD_DOWN,
   pressure s BTN_DPAD_LEFT,
   0x00, 0x00, 0x00, 0x00,
   s.left_trigger,
   s.right_trigger,
   pressure s BTN_L1,
   pressure s BTN_R1,
   pressure s BTN_NORTH,
   pressure s BTN_EAST,
   pressure s BTN_SOUTH,
   pressure s BTN_WEST,
   0x00, 0x00, 0x00,
   0x02,
   ds3BatteryByte s,
   0x12,
   0x00, 0x00, 0x00, 0x00,
   0x33, 0x04, 0x77, 0x01,
   motionLo (clamp1023 (512 + Int.tdiv s.accel_x 72)),
   motionHi (clamp1023 (512 + Int.tdiv s.accel_x 72)),
   motionLo (clamp1023 (512 + Int.tdiv s.accel_y 72)),
   motionHi (clamp1023 (512 + Int.tdiv s.accel_y 72)),
   motionLo (clamp1023 (512 + Int.tdiv s.accel_z 72)),
   motionHi (clamp1023 (512 + Int.tdiv s.accel_z 72)),
   motionLo (clamp1023 (498 + Int.tdiv s.gyro_z 120)),
   motionHi (clamp1023 (498 + Int.tdiv s.gyro_z 120)),
   0x02]

/-- The neutral snapshot: sticks centred at 128, no buttons, motion zero,
battery reported fully charged. -/
def neutralSnapshot : ControllerState :=
  { buttons := 0
    left_stick_x := 128, left_stick_y := 128
    right_stick_x := 128, right_stick_y := 128
    left_trigger := 0, right_trigger := 0
    accel_x := 0, accel_y := 0, accel_z := 0
    gyro_x := 0, gyro_y := 0, gyro_z := 0
    touch0_active := false, touch0_x := 0, touch0_y := 0
    touch1_active := false, touch1_x := 0, touch1_y := 0
    battery_level := 100, battery_charging := false, battery_full := true }

/-- Battery conversion from `ds3.c` (`ds3_update_battery_from_dualsense`,
lines 488-525): the DS3 battery status byte computed from a DualSense
percentage and charging flag. -/
def ds3UpdateBatteryFromDualsense (ds_battery_level : Nat) (ds_charging : Bool) : Nat :=
  if ds_charging then
    if ds_battery_level ≥ 100 then 0xEF else 0xEE
  else if ds_battery_level ≤ 5 then 0x00
  else if ds_battery_level ≤ 15 then 0x01
  else if ds_battery_level ≤ 35 then 0x02
  else if ds_battery_level ≤ 60 then 0x03
  else if ds_battery_level ≤ 85 then 0x04
  else 0x05

/- ==========================================================================
   Byte-list update helper (C `memcpy` into an array at an offset).
   ========================================================================== -/

/-- Write the bytes `vs` into `l` starting at index `start`
(`memcpy(&l[start], vs, |vs|)`). -/
def setBytes (l : List Nat) (start : Nat) : List Nat → List Nat
  | [] => l
  | v :: vs => setBytes (l.set start v) (start + 1) vs

/- ==========================================================================
   DS3 feature reports, from `console/ps3/ds3_emulation.c`.
   ========================================================================== -/

/-- `report_01` (Capabilities) from `ds3_emulation.c` lines 61-70. -/
def report_01 : List Nat :=
  [0x00, 0x01, 0x04, 0x00, 0x08, 0x0C, 0x01, 0x02,
   0x18, 0x18, 0x18, 0x18, 0x09, 0x0A, 0x10, 0x11,
   0x12, 0x13, 0x00, 0x00, 0x00, 0x00, 0x04, 0x00,
   0x02, 0x02, 0x02, 0x02, 0x00, 0x00, 0x00, 0x04,
   0x04, 0x04, 0x04, 0x00, 0x00, 0x04, 0x00, 0x01,
   0x02, 0x07, 0x00, 0x17, 0x00, 0x00, 0x00, 0x00,
   0x00, 0x00, 0x00, 0x00, 0x00, 0x00, 0x00, 0x00,
   0x00, 0x00, 0x00, 0x00, 0x00, 0x00, 0x00, 0x00]

/-- Initial `report_f2` (Controller Bluetooth MAC) from `ds3_emulation.c`
lines 73-82. -/
def report_f2_init : List Nat :=
  [0xF2, 0xFF, 0xFF, 0x00, 0x00, 0x00, 0x00, 0x00,
   0x00, 0x00, 0x00, 0x03, 0x50, 0x81, 0xD8, 0x01,
   0x8A, 0x13, 0x00, 0x00, 0x00, 0x00, 0x04, 0x00,
   0x02, 0x02, 0x02, 0x02, 0x00, 0x00, 0x00, 0x04,
   0x04, 0x04, 0x04, 0x00, 0x00, 0x04, 0x00, 0x01,
   0x02, 0x07, 0x00, 0x17, 0x00, 0x00, 0x00, 0x00,
   0x00, 0x00, 0x00, 0x00, 0x00, 0x00, 0x00, 0x00,
   0x00, 0x00, 0x00, 0x00, 0x00, 0x00, 0x00, 0x00]

/-- Initial `report_f5` (Host/Pairing MAC) from `ds3_emulation.c`
lines 85-94. -/
def report_f5_init : List Nat :=
  [0x01, 0x00, 0x00, 0x00, 0x00, 0x00, 0x00, 0x00,
   0xAE, 0x60, 0x00, 0x03, 0x50, 0x81, 0xD8, 0x01,
   0x8A, 0x13, 0x00, 0x00, 0x00, 0x00, 0x04, 0x00,
   0x02, 0x02, 0x02, 0x02, 0x00, 0x00, 0x00, 0x04,
   0x04, 0x04, 0x04, 0x00, 0x00, 0x04, 0x00, 0x01,
   0x02, 0x07, 0x00, 0x17, 0x00, 0x00, 0x00, 0x00,
   0x00, 0x00, 0x00, 0x00, 0x00, 0x00, 0x00, 0x00,
   0x00, 0x00, 0x00, 0x00, 0x00, 0x00, 0x00, 0x00]

/-- `report_f7` (Calibration) from `ds3_emulation.c` lines 97-106. -/
def report_f7 : List Nat :=
  [0x02, 0x01, 0xF8, 0x02, 0x07, 0x02, 0xEF, 0xFF,
   0x14, 0x33, 0x00, 0x00, 0x00, 0x00, 0x00, 0x00,
   0x00, 0x00, 0x00, 0x00, 0x00, 0x00, 0x00, 0x00,
   0x00, 0x00, 0x00, 0x00, 0x00, 0x00, 0x00, 0x00,
   0x00, 0x00, 0x00, 0x00, 0x00, 0x00, 0x00, 0x00,
   0x00, 0x00, 0x00, 0x00, 0x00, 0x00, 0x00, 0x00,
   0x05, 0x00, 0x00, 0x00, 0x00, 0x00, 0x00, 0x00,
   0x00, 0x00, 0x00, 0x00, 0x00, 0x00, 0x00, 0x00]

/-- `report_f8` (Status) from `ds3_emulation.c` lines 109-118. -/
def report_f8 : List Nat :=
  [0x00, 0x02, 0x00, 0x00, 0x08, 0x00, 0x03, 0x01,
   0x00, 0x00, 0x00, 0x00, 0x00, 0x00, 0x00, 0x00,
   0x00, 0x00, 0x00, 0x00, 0x00, 0x00, 0x00, 0x00,
   0x00, 0x00, 0x00, 0x00, 0x00, 0x00, 0x00, 0x00,
   0x00, 0x00, 0x00, 0x00, 0x00, 0x00, 0x00, 0x00,
   0x00, 0x00, 0x00, 0x00, 0x00, 0x00, 0x00, 0x00,
   0x05, 0x00, 0x00, 0x00, 0x00, 0x00, 0x00, 0x00,
   0x00, 0x00, 0x00, 0x00, 0x00, 0x00, 0x00, 0x00]

/-- Initial `report_ef` (EF Config) from `ds3_emulation.c` lines 121-130. -/
def report_ef_init : List Nat :=
  [0x00, 0xEF, 0x04, 0x00, 0x08, 0x00, 0x03, 0x01,
   0x00, 0x00, 0x00, 0x00, 0x00, 0x00, 0x00, 0x00,
   0x00, 0x00, 0x00, 0x00, 0x00, 0x00, 0x00, 0x00,
   0x00, 0x00, 0x00, 0x00, 0x00, 0x00, 0x00, 0x00,
   0x00, 0x00, 0x00, 0x00, 0x00, 0x00, 0x00, 0x00,
   0x00, 0x00, 0x00, 0x00, 0x00, 0x00, 0x00, 0x00,
   0x05, 0x00, 0x00, 0x00, 0x00, 0x00, 0x00, 0x00,
   0x00, 0x00, 0x00, 0x00, 0x00, 0x00, 0x00, 0x00]

/-- Mutable feature-report state of `console/ps3/ds3_emulation.c`:
the runtime-mutated arrays `report_f2`, `report_f5`, `report_ef` plus the
captured PS3 MAC (`g_ps3_mac`, `g_ps3_mac_valid`). -/
structure DS3FeatureState where
  report_f2 : List Nat
  report_f5 : List Nat
  report_ef : List Nat
  ps3_mac : List Nat
  ps3_mac_valid : Bool
  deriving Repr, DecidableEq

/-- The state at program start (array initialisers, no PS3 MAC). -/
def ds3FeatureInit : DS3FeatureState :=
  { report_f2 := report_f2_init
    report_f5 := report_f5_init
    report_ef := report_ef_init
    ps3_mac := [0, 0, 0, 0, 0, 0]
    ps3_mac_valid := false }

/-- `ds3_set_host_mac` (`ds3_emulation.c` lines 148-157): writes the local
MAC into report 0xF5 bytes 2-7 and report 0xF2 bytes 4-9. -/
def ds3SetHostMac (st : DS3FeatureState) (mac : List Nat) : DS3FeatureState :=
  { st with
    report_f5 := setBytes st.report_f5 2 (mac.take 6)
    report_f2 := setBytes st.report_f2 4 (mac.take 6) }

/-- `ds3_get_feature_report` (`ds3_emulation.c` lines 173-206): the six
known report IDs return their arrays, anything else returns nothing
(C `NULL`). -/
def ds3GetFeatureReport (st : DS3FeatureState) (report_id : Nat) : Option (List Nat) :=
  if report_id = 0x01 then some report_01
  else if report_id = 0xF2 then some st.report_f2
  else if report_id = 0xF5 then some st.report_f5
  else if report_id = 0xF7 then some report_f7
  else if report_id = 0xF8 then some report_f8
  else if report_id = 0xEF then some st.report_ef
  else none

/-- `ds3_handle_set_report` (`ds3_emulation.c` lines 208-233).
0xF5 with at least 8 bytes captures payload bytes 2-7 as the PS3 MAC and
copies them into report 0xF5 bytes 2-7; 0xEF with a non-empty payload
stores `0xEF` at byte 0 and up to 63 payload bytes from byte 1 on;
0xF4 only logs; everything else is ignored. -/
def ds3HandleSetReport (st : DS3FeatureState) (report_id : Nat) (data : List Nat) :
    DS3FeatureState :=
  if report_id = 0xF5 ∧ 8 ≤ data.length then
    let mac := [data.getD 2 0, data.getD 3 0, data.getD 4 0,
                data.getD 5 0, data.getD 6 0, data.getD 7 0]
    { st with
      ps3_mac := mac
      ps3_mac_valid := true
      report_f5 := setBytes st.report_f5 2 mac }
  else if report_id = 0xEF ∧ 0 < data.length then
    { st with report_ef := setBytes (st.report_ef.set 0 0xEF) 1 (data.take 63) }
  else st

/- ==========================================================================
   Pairing persistence, from `src/adapter/src/ds3.c`.
   File content is modelled as a list of lines, each line a list of
   characters (the C code reads and writes the file line by line and
   trims the newline).
   ========================================================================== -/

/-- Upper-case hex digit, as produced by `snprintf` with `%02X`. -/
def hexDigitChar (n : Nat) : Char :=
  if n < 10 then Char.ofNat (48 + n) else Char.ofNat (55 + n)

/-- Two upper-case hex digits of a byte (`%02X`). -/
def byteToHexChars (b : Nat) : List Char :=
  [hexDigitChar (b / 16), hexDigitChar (b % 16)]

/-- Hex-colon notation of a six-byte MAC, as `snprintf`
`"%02X:%02X:%02X:%02X:%02X:%02X"` produces it in `ds3_handle_set_report`
(`ds3.c` lines 340-342). -/
def macToChars : List Nat → List Char
  | [b0, b1, b2, b3, b4, b5] =>
      byteToHexChars b0 ++ [':'] ++ byteToHexChars b1 ++ [':'] ++
      byteToHexChars b2 ++ [':'] ++ byteToHexChars b3 ++ [':'] ++
      byteToHexChars b4 ++ [':'] ++ byteToHexChars b5
  | _ => []

/-- Value of one hex digit (`sscanf` `%x` accepts both cases). -/
def hexVal (c : Char) : Option Nat :=
  if '0' ≤ c ∧ c ≤ '9' then some (c.toNat - 48)
  else if 'A' ≤ c ∧ c ≤ 'F' then some (c.toNat - 55)
  else if 'a' ≤ c ∧ c ≤ 'f' then some (c.toNat - 87)
  else none

/-- A two-digit hex byte, as each `%02x` field of `parse_mac` reads it. -/
def parseHexByte : List Char → Option Nat
  | [c1, c2] =>
      match hexVal c1, hexVal c2 with
      | some h, some l => some (16 * h + l)
      | _, _ => none
  | _ => none

/-- Split a character list at every colon. -/
def splitColon : List Char → List Char → List (List Char)
  | [], acc => [acc.reverse]
  | c :: rest, acc =>
      if c = ':' then acc.reverse :: splitColon rest []
      else splitColon rest (c :: acc)

/-- `parse_mac` (`ds3.c` lines 95-103): six colon-separated two-digit hex
fields (the `sscanf` format `"%02x:%02x:%02x:%02x:%02x:%02x"` on the
colon-notation strings this program writes). -/
def parseMac (s : List Char) : Option (List Nat) :=
  match splitColon s [] with
  | [a, b, c, d, e, f] =>
      match parseHexByte a, parseHexByte b, parseHexByte c,
            parseHexByte d, parseHexByte e, parseHexByte f with
      | some x0, some x1, some x2, some x3, some x4, some x5 =>
          some [x0, x1, x2, x3, x4, x5]
      | _, _, _, _, _, _ => none
  | _ => none

/-- `ds3_save_pairing` (`ds3.c` lines 187-206): the file content written
to `/etc/rosettapad/pairing.conf` for a given PS3 address string and the
stored local MAC string. -/
def ds3SavePairing (ps3_addr local_mac : List Char) : List (List Char) :=
  [("# RosettaPad Pairing Configuration").toList,
   ("# Auto-generated during USB pairing").toList,
   ("PS3_MAC=").toList ++ ps3_addr,
   ("LOCAL_MAC=").toList ++ local_mac]

/-- One line of `ds3_load_pairing` (`ds3.c` lines 149-184): comment and
empty lines are skipped, a line without `=` is skipped, and a
`PS3_MAC=<mac>` line whose value parses writes the six MAC bytes into
report 0xF5 bytes 2-7. -/
def ds3LoadPairingLine (f5 : List Nat) (line : List Char) : List Nat :=
  if line = [] then f5
  else if line.headD ' ' = '#' then f5
  else if line.contains '=' then
    let key := line.takeWhile (fun c => c ≠ '=')
    let value := (line.dropWhile (fun c => c ≠ '=')).tail
    if key = ("PS3_MAC").toList then
      match parseMac value with
      | some mac => setBytes f5 2 mac
      | none => f5
    else f5
  else f5

/-- `ds3_load_pairing` over a whole file. -/
def ds3LoadPairing (lines : List (List Char)) (f5 : List Nat) : List Nat :=
  lines.foldl ds3LoadPairingLine f5

/-- Pairing-related state of `ds3.c`: report 0xF5, the MAC strings
`g_local_bt_mac` / `g_ps3_bt_mac`, the pairing file content (none while
the file has not been written), and `g_pairing_complete`. -/
structure DS3PairingState where
  report_f5 : List Nat
  local_mac : List Char
  ps3_mac : List Char
  pairing_file : Option (List (List Char))
  pairing_complete : Bool
  deriving Repr, DecidableEq

/-- The `DS3_REPORT_PAIRING` (0xF5) branch of `ds3_handle_set_report` in
`ds3.c` (lines 336-367): with at least 8 payload bytes, format payload
bytes 2-7 in hex-colon notation, store them into report 0xF5 bytes 2-7,
write the pairing file via `ds3_save_pairing`, remember the address
string and set `g_pairing_complete`. -/
def ds3HandleSetReportPairing (st : DS3PairingState) (data : List Nat) : DS3PairingState :=
  if 8 ≤ data.length then
    let mac := [data.getD 2 0, data.getD 3 0, data.getD 4 0,
                data.getD 5 0, data.getD 6 0, data.getD 7 0]
    let addr := macToChars mac
    { st with
      report_f5 := setBytes st.report_f5 2 mac
      ps3_mac := addr
      pairing_file := some (ds3SavePairing addr st.local_mac)
      pairing_complete := true }
  else st

/- ==========================================================================
   DualSense decoder, from `controllers/dualsense/dualsense.c`.
   ========================================================================== -/

/-- Per-axis calibration record (`ds_axis_calib_t` in `dualsense.h`). -/
structure DSAxisCalib where
  bias : Int
  sens_numer : Int
  sens_denom : Int
  deriving Repr, DecidableEq

/-- Calibration record (`ds_calibration_t` in `dualsense.h`). -/
structure DSCalibration where
  gyro_pitch : DSAxisCalib
  gyro_yaw : DSAxisCalib
  gyro_roll : DSAxisCalib
  accel_x : DSAxisCalib
  accel_y : DSAxisCalib
  accel_z : DSAxisCalib
  valid : Bool
  deriving Repr, DecidableEq

/-- Reduce an integer to the two's-complement `int16_t` range, the effect
of the C casts to `int16_t` in the decoder. -/
def wrapInt16 (x : Int) : Int :=
  let m := x.emod 65536
  if m < 32768 then m else m - 65536

/-- Signed 16-bit little-endian value from two report bytes
(`(int16_t)(lo | (hi << 8))`). -/
def toInt16 (lo hi : Nat) : Int :=
  wrapInt16 (((lo ||| (hi <<< 8)) : Nat) : Int)

/-- `apply_calibration` (`dualsense.c` lines 179-182):
`(raw - bias) * sens_numer / sens_denom` with C truncated division. -/
def applyCalibration (raw : Int) (c : DSAxisCalib) : Int :=
  Int.tdiv ((raw - c.bias) * c.sens_numer) c.sens_denom

/-- One motion axis of `dualsense_process_input`: calibrated (then cast
back to `int16_t`) when the calibration record is valid, raw otherwise. -/
def motionAxis (valid : Bool) (c : DSAxisCalib) (raw : Int) : Int :=
  if valid then wrapInt16 (applyCalibration raw c) else raw

/-- `CONTROLLER_APPLY_DEADZONE(val, 6)`: snap to 128 inside the
symmetric window [122, 134]. -/
def applyDeadzone (v : Nat) : Nat :=
  if 128 - 6 ≤ v ∧ v ≤ 128 + 6 then 128 else v

/-- `dualsense_parse_dpad` (`dualsense.c` lines 391-425) as a button
bitmask: hat values 0-7 set the dpad bits, 8 and above set none. -/
def dpadButtons (dpad : Nat) : Nat :=
  match dpad with
  | 0 => 1 <<< BTN_DPAD_UP
  | 1 => (1 <<< BTN_DPAD_UP) ||| (1 <<< BTN_DPAD_RIGHT)
  | 2 => 1 <<< BTN_DPAD_RIGHT
  | 3 => (1 <<< BTN_DPAD_DOWN) ||| (1 <<< BTN_DPAD_RIGHT)
  | 4 => 1 <<< BTN_DPAD_DOWN
  | 5 => (1 <<< BTN_DPAD_DOWN) ||| (1 <<< BTN_DPAD_LEFT)
  | 6 => 1 <<< BTN_DPAD_LEFT
  | 7 => (1 <<< BTN_DPAD_UP) ||| (1 <<< BTN_DPAD_LEFT)
  | _ => 0

/-- Button bitmask decoded from report bytes 9, 10, 11
(`dualsense_process_input` lines 458-486). -/
def dualsenseButtons (b1 b2 b3 : Nat) : Nat :=
  dpadButtons (b1 &&& 0x0F) |||
  (if b1 &&& 0x20 ≠ 0 then 1 <<< BTN_SOUTH else 0) |||
  (if b1 &&& 0x40 ≠ 0 then 1 <<< BTN_EAST else 0) |||
  (if b1 &&& 0x10 ≠ 0 then 1 <<< BTN_WEST else 0) |||
  (if b1 &&& 0x80 ≠ 0 then 1 <<< BTN_NORTH else 0) |||
  (if b2 &&& 0x01 ≠ 0 then 1 <<< BTN_L1 else 0) |||
  (if b2 &&& 0x02 ≠ 0 then 1 <<< BTN_R1 else 0) |||
  (if b2 &&& 0x04 ≠ 0 then 1 <<< BTN_L2 else 0) |||
  (if b2 &&& 0x08 ≠ 0 then 1 <<< BTN_R2 else 0) |||
  (if b2 &&& 0x40 ≠ 0 then 1 <<< BTN_L3 else 0) |||
  (if b2 &&& 0x80 ≠ 0 then 1 <<< BTN_R3 else 0) |||
  (if b2 &&& 0x10 ≠ 0 then 1 <<< BTN_SELECT else 0) |||
  (if b2 &&& 0x20 ≠ 0 then 1 <<< BTN_START else 0) |||
  (if b3 &&& 0x01 ≠ 0 then 1 <<< BTN_HOME else 0) |||
  (if b3 &&& 0x02 ≠ 0 then 1 <<< BTN_TOUCHPAD else 0) |||
  (if b3 &&& 0x04 ≠ 0 then 1 <<< BTN_MUTE else 0)

/-- Clamp a stick value to [0, 255] (the touchpad-as-stick clamping). -/
def clamp255 (x : Int) : Int :=
  if x < 0 then 0 else if x > 255 then 255 else x

/-- The decoder's static touchpad-as-right-stick state
(`touch_initial_x`, `touch_initial_y`, `touch_was_active` in
`dualsense_process_input`). -/
structure TouchMapState where
  touch_initial_x : Int
  touch_initial_y : Int
  touch_was_active : Bool
  deriving Repr, DecidableEq

/-- The initial value of the decoder statics. -/
def touchMapInit : TouchMapState :=
  { touch_initial_x := 0, touch_initial_y := 0, touch_was_active := false }

/-- One motion axis of `dualsense_process_input` (lines 488-515): read
only when the buffer reaches 28 bytes (else the memset zero stays),
calibrated (then cast back to `int16_t`) when the record is valid, raw
otherwise. -/
def motionAt (valid : Bool) (c : DSAxisCalib) (buf : List Nat) (off : Nat) : Int :=
  if 28 ≤ buf.length then
    motionAxis valid c (toInt16 (buf.getD off 0) (buf.getD (off + 1) 0))
  else 0

/-- Touch-contact activity: the touch block is read once the buffer
reaches `DS_OFF_TOUCHPAD + 4` = 38 bytes, and the top bit of the
contact's first byte means inactive. -/
def touchActive (buf : List Nat) (off : Nat) : Prop :=
  38 ≤ buf.length ∧ buf.getD off 0 &&& 0x80 = 0

instance (buf : List Nat) (off : Nat) : Decidable (touchActive buf off) := by
  unfold touchActive; infer_instance

/-- Touch X coordinate: `b1 | ((b2 & 0x0F) << 8)`. -/
def touchX (buf : List Nat) (off : Nat) : Nat :=
  buf.getD (off + 1) 0 ||| ((buf.getD (off + 2) 0 &&& 0x0F) <<< 8)

/-- Touch Y coordinate: `(b2 >> 4) | (b3 << 4)`. -/
def touchY (buf : List Nat) (off : Nat) : Nat :=
  (buf.getD (off + 2) 0 >>> 4) ||| (buf.getD (off + 3) 0 <<< 4)

/-- The touchpad-as-right-stick block of `dualsense_process_input`
(lines 531-568): when contact 0 is active, the first touch position is
recorded as origin and the delta is mapped to a stick value around 128
scaled by 127/400 and clamped to [0, 255], overriding the right stick;
when it is inactive the origin flag is cleared and the (deadzoned)
right-stick values pass through; when the buffer has no touch block
nothing changes.  Returns the new statics and the right-stick pair. -/
def touchStickOverride (ts : TouchMapState) (buf : List Nat) (rx ry : Nat) :
    TouchMapState × Nat × Nat :=
  if touchActive buf 34 then
    let ix := if ts.touch_was_active then ts.touch_initial_x else (touchX buf 34 : Int)
    let iy := if ts.touch_was_active then ts.touch_initial_y else (touchY buf 34 : Int)
    let sx := clamp255 (128 + Int.tdiv (((touchX buf 34 : Int) - ix) * 127) 400)
    let sy := clamp255 (128 + Int.tdiv (((touchY buf 34 : Int) - iy) * 127) 400)
    (⟨ix, iy, true⟩, sx.toNat, sy.toNat)
  else if 38 ≤ buf.length then ({ ts with touch_was_active := false }, rx, ry)
  else (ts, rx, ry)

/-- Shallow embedding of `dualsense_process_input`
(`dualsense.c` lines 427-591).  Rejects short buffers and wrong report
IDs (returning the untouched statics and no snapshot).  Otherwise the
snapshot starts zeroed, sticks get the ±6 deadzone, buttons come from
bytes 9-11, motion from bytes 16-27 when the buffer is long enough,
touch contacts from bytes 34-41, battery from byte 54, and the
touchpad-as-right-stick feature may override the right stick.  Bytes
beyond the given length read as zero, matching the zero-filled C read
buffer. -/
def dualsenseProcessInput (calib : DSCalibration) (ts : TouchMapState)
    (buf : List Nat) : TouchMapState × Option ControllerState :=
  if buf.length < 12 ∨ buf.getD 0 0 ≠ 0x31 then (ts, none) else
  ((touchStickOverride ts buf
      (applyDeadzone (buf.getD 4 0)) (applyDeadzone (buf.getD 5 0))).1,
   some
     { buttons := dualsenseButtons (buf.getD 9 0) (buf.getD 10 0) (buf.getD 11 0)
       left_stick_x := applyDeadzone (buf.getD 2 0)
       left_stick_y := applyDeadzone (buf.getD 3 0)
       right_stick_x := (touchStickOverride ts buf
         (applyDeadzone (buf.getD 4 0)) (applyDeadzone (buf.getD 5 0))).2.1
       right_stick_y := (touchStickOverride ts buf
         (applyDeadzone (buf.getD 4 0)) (applyDeadzone (buf.getD 5 0))).2.2
       left_trigger := buf.getD 6 0
       right_trigger := buf.getD 7 0
       accel_x := motionAt calib.valid calib.accel_x buf 22
       accel_y := motionAt calib.valid calib.accel_y buf 24
       accel_z := motionAt calib.valid calib.accel_z buf 26
       gyro_x := motionAt calib.valid calib.gyro_pitch buf 16
       gyro_y := motionAt calib.valid calib.gyro_yaw buf 18
       gyro_z := motionAt calib.valid calib.gyro_roll buf 20
       touch0_active := decide (touchActive buf 34)
       touch0_x := if touchActive buf 34 then touchX buf 34 else 0
       touch0_y := if touchActive buf 34 then touchY buf 34 else 0
       touch1_active := decide (touchActive buf 38)
       touch1_x := if touchActive buf 38 then touchX buf 38 else 0
       touch1_y := if touchActive buf 38 then touchY buf 38 else 0
       battery_level :=
         if 55 ≤ buf.length then
           (if buf.getD 54 0 &&& 0x0F > 10 then 100 else (buf.getD 54 0 &&& 0x0F) * 10)
         else 0
       battery_charging := 55 ≤ buf.length ∧
         ((buf.getD 54 0 >>> 4) &&& 0x0F = 0x1 ∨ (buf.getD 54 0 >>> 4) &&& 0x0F = 0x2)
       battery_full := 55 ≤ buf.length ∧ (buf.getD 54 0 >>> 4) &&& 0x0F = 0x2 })

/- ==========================================================================
   DS3 output-report parsing, from `console/ps3/ds3_emulation.c`
   (`ds3_parse_output_report`) and the BT interrupt handler in
   `console/ps3/bt_hid.c` (`process_interrupt`).
   ========================================================================== -/

/-- DS3 player-LED bitmask to DualSense five-LED pattern
(`ds3_parse_output_report` lines 443-457): 0x02, 0x04, 0x08, 0x10 map to
0x04, 0x0A, 0x15, 0x1B, tested in that order; no bit yields 0. -/
def ds3PlayerLedMap (ds3_leds : Nat) : Nat :=
  if ds3_leds &&& 0x02 ≠ 0 then 0x04
  else if ds3_leds &&& 0x04 ≠ 0 then 0x0A
  else if ds3_leds &&& 0x08 ≠ 0 then 0x15
  else if ds3_leds &&& 0x10 ≠ 0 then 0x1B
  else 0

/-- The player-LED half of `ds3_parse_output_report` (lines 430-467):
with at least 11 bytes a non-zero mapped LED pattern different from the
current one replaces `player_leds`; otherwise the record is returned
unchanged. -/
def ds3ApplyLeds (data : List Nat) (out1 : ControllerOutput) : ControllerOutput :=
  if 11 ≤ data.length then
    if ds3PlayerLedMap (data.getD 10 0) ≠ 0 ∧
       ds3PlayerLedMap (data.getD 10 0) ≠ out1.player_leds then
      { out1 with player_leds := ds3PlayerLedMap (data.getD 10 0) }
    else out1
  else out1

/-- `ds3_parse_output_report` (`ds3_emulation.c` lines 399-470): reports
shorter than 6 bytes are ignored; byte 3 (weak motor, on/off) drives the
right motor as 0xFF/0x00, byte 5 (strong motor) is copied to the left
motor; then the player-LED byte is applied. -/
def ds3ParseOutputReport (data : List Nat) (prev : ControllerOutput) : ControllerOutput :=
  if data.length < 6 then prev else
  ds3ApplyLeds data
    { prev with
      rumble_right := if data.getD 3 0 ≠ 0 then 0xFF else 0x00
      rumble_left := data.getD 5 0 }

/-- DS3 output report carrying a rumble pair, following the output layout
documented at the top of `ds3_parse_output_report`: byte 2/4 motor
durations, byte 3 the weak (right) motor on/off flag, byte 5 the strong
(left) motor power. -/
def ds3RumbleCommand (left right : Nat) : List Nat :=
  [0x01, 0x00, 0x96, if right ≠ 0 then 0x01 else 0x00, 0x96, left]

/-- `process_interrupt` (`console/ps3/bt_hid.c` lines 445-465): a packet
of at least 7 bytes starting `0xA2 0x01` sets the right motor from byte 4
(0xFF/0x00) and the left motor from byte 6; nothing else in the output
state is touched. -/
def ps3BtProcessInterrupt (buf : List Nat) (prev : ControllerOutput) : ControllerOutput :=
  if 7 ≤ buf.length ∧ buf.getD 0 0 = 0xA2 ∧ buf.getD 1 0 = 0x01 then
    { prev with
      rumble_right := if buf.getD 4 0 ≠ 0 then 0xFF else 0x00
      rumble_left := buf.getD 6 0 }
  else prev

/-- The initial global output state (`g_controller_output` in
`core/common.c` lines 179-187). -/
def controllerOutputInit : ControllerOutput :=
  { rumble_left := 0, rumble_right := 0
    led_r := 255, led_g := 0, led_b := 0
    player_leds := 0, player_brightness := 255 }

/- ==========================================================================
   Power-state machine, from `core/common.c` (`system_enter_standby`,
   `system_exit_standby`, `system_set_state`) and the FunctionFS event
   handling in `console/ps3/usb_gadget.c` (`ps3_usb_control_thread`).
   Each event is one `system_set_state` opportunity; times are the
   monotonic millisecond clock.
   ========================================================================== -/

/-- Power states (`system_state_t` in `core/common.h`). -/
inductive SystemState where
  | active
  | standby
  | waking
  deriving Repr, DecidableEq

/-- The power state together with `g_last_state_change_time`. -/
structure PowerCtx where
  state : SystemState
  lastChange : Nat
  deriving Repr, DecidableEq

/-- Power-manager events: a USB SUSPEND (`system_enter_standby`), a home
press in standby (`system_exit_standby`, up to its `system_set_state`
to Waking), the completion of `system_exit_standby` (its final
`system_set_state(SYSTEM_STATE_ACTIVE)` after the wake attempt), and a
USB ENABLE (`FUNCTIONFS_ENABLE`). -/
inductive PowerEvent where
  | suspendEvt (now : Nat)
  | homePress (now : Nat)
  | wakeDone (now : Nat)
  | usbEnable (now : Nat)
  deriving Repr, DecidableEq

/-- One power-manager step.  `suspendEvt` and `homePress` first check the
2000 ms debounce (`can_change_state`) and then the current state, as the
C functions do.  `wakeDone` is the unconditional
`system_set_state(SYSTEM_STATE_ACTIVE)` at the end of
`system_exit_standby` (`core/common.c` line 135): it fires whenever the
(possibly seconds-long) wake attempt finishes, with no check of the
state or the debounce, whatever transitions intervened meanwhile.
`usbEnable` moves Waking to Active with no debounce check. -/
def powerStep (c : PowerCtx) : PowerEvent → PowerCtx
  | .suspendEvt now =>
      if now - c.lastChange < 2000 then c
      else if c.state ≠ .active then c
      else ⟨.standby, now⟩
  | .homePress now =>
      if now - c.lastChange < 2000 then c
      else if c.state ≠ .standby then c
      else ⟨.waking, now⟩
  | .wakeDone now => ⟨.active, now⟩
  | .usbEnable now =>
      if c.state = .waking then ⟨.active, now⟩ else c

/- ==========================================================================
   Bluetooth connection-state loop, from `console/ps3/bt_hid.c`
   (`ps3_bt_thread` READY/ENABLED branch and `process_control`).
   ========================================================================== -/

/-- Connection states (`bt_state_t` in `console/ps3/bt_hid.h`). -/
inductive BtState where
  | disconnected
  | scanning
  | connecting
  | controlConnected
  | interruptConnected
  | ready
  | enabled
  | error
  deriving Repr, DecidableEq

/-- The BT management-loop state: the connection state plus the static
`ready_count` counter of `ps3_bt_thread`. -/
structure BtLoopCtx where
  state : BtState
  readyCount : Nat
  deriving Repr, DecidableEq

/-- Tail of one READY/ENABLED loop iteration: a socket error disconnects;
otherwise a SET_REPORT 0xF4 on the control channel sets Enabled
(`process_control` lines 388-391), and if USB has come up the loop
disconnects the BT session (lines 675-679). -/
def btLoopTail (l : BtLoopCtx) (f4 sockError usbEnabled : Bool) : BtLoopCtx :=
  if sockError then ⟨.disconnected, l.readyCount⟩
  else
    let l2 := if f4 then ⟨BtState.enabled, l.readyCount⟩ else l
    if usbEnabled then ⟨.disconnected, l2.readyCount⟩ else l2

/-- One iteration of the `ps3_bt_thread` loop in the READY or ENABLED
state (`bt_hid.c` lines 644-679).  In READY the static counter is
incremented first and reaching 50 auto-enables (the loop sleeps 10 ms per
iteration, so 50 iterations is the 500 ms timeout); then control and
interrupt packets are processed.  Other states do not reach Enabled in
this loop. -/
def btLoopStep (l : BtLoopCtx) (f4 sockError usbEnabled : Bool) : BtLoopCtx :=
  match l.state with
  | .ready =>
      let l1 := if 50 ≤ l.readyCount + 1 then ⟨BtState.enabled, 0⟩
                else ⟨BtState.ready, l.readyCount + 1⟩
      btLoopTail l1 f4 sockError usbEnabled
  | .enabled => btLoopTail l f4 sockError usbEnabled
  | _ => l

/-- Milliseconds per READY-loop iteration (`usleep(10000)`). -/
def btLoopPeriodMs : Nat := 10

/-- The tail of a successful `ps3_bt_connect` (`bt_hid.c` line 522): the
connection state is set to READY.  The static `ready_count` of
`ps3_bt_thread` is function-scope and is not touched by
`ps3_bt_connect`, `ps3_bt_disconnect` or the 0xF4 enable, so a
re-entered Ready episode keeps whatever counter value the previous
episode left. -/
def btConnectReady (l : BtLoopCtx) : BtLoopCtx :=
  ⟨BtState.ready, l.readyCount⟩

/-- The loop run from a READY state whose static counter holds `c`, with
no 0xF4, no socket error and USB down, for `k` iterations.  `c = 0` is
the thread's first Ready episode; a re-entered episode starts from the
stale counter of the previous one. -/
def btRunFrom (c : Nat) : Nat → BtLoopCtx
  | 0 => ⟨.ready, c⟩
  | k + 1 => btLoopStep (btRunFrom c k) false false false

/- ==========================================================================
   Helper lemmas.
   ========================================================================== -/

theorem getD_set_self (l : List Nat) (i v : Nat) (h : i < l.length) :
    (l.set i v).getD i 0 = v := by
  simp [List.getD_eq_getElem?_getD, List.getElem?_set_eq_of_lt, h]

theorem getD_set_other (l : List Nat) (i j v : Nat) (h : i ≠ j) :
    (l.set i v).getD j 0 = l.getD j 0 := by
  simp [List.getD_eq_getElem?_getD, List.getElem?_set_ne h]

theorem length_setBytes (vs : List Nat) (l : List Nat) (start : Nat) :
    (setBytes l start vs).length = l.length := by
  induction vs generalizing l start with
  | nil => rfl
  | cons v vs ih => rw [setBytes, ih, List.length_set]

theorem getD_setBytes_lt (vs : List Nat) (l : List Nat) (start j : Nat)
    (h : j < start) : (setBytes l start vs).getD j 0 = l.getD j 0 := by
  induction vs generalizing l start with
  | nil => rfl
  | cons v vs ih =>
      rw [setBytes, ih _ _ (by omega), getD_set_other _ _ _ _ (by omega)]

theorem getD_setBytes_ge (vs : List Nat) (l : List Nat) (start j : Nat)
    (h : start + vs.length ≤ j) : (setBytes l start vs).getD j 0 = l.getD j 0 := by
  induction vs generalizing l start with
  | nil => rfl
  | cons v vs ih =>
      rw [setBytes, ih _ _ (by simp at h ⊢; omega),
          getD_set_other _ _ _ _ (by simp at h; omega)]

theorem getD_setBytes_mem (vs : List Nat) (l : List Nat) (start k : Nat)
    (hk : k < vs.length) (hlen : start + vs.length ≤ l.length) :
    (setBytes l start vs).getD (start + k) 0 = vs.getD k 0 := by
  induction vs generalizing l start k with
  | nil => simp at hk
  | cons v vs ih =>
      cases k with
      | zero =>
          rw [setBytes, getD_setBytes_lt _ _ _ _ (by omega)]
          rw [Nat.add_zero, getD_set_self _ _ _ (by simp at hlen; omega)]
          rfl
      | succ k =>
          rw [setBytes]
          have hrw : start + (k + 1) = (start + 1) + k := by omega
          rw [hrw, ih (l.set start v) (start + 1) k (by simp at hk; omega)
                (by simp at hlen ⊢; omega)]
          rfl

theorem lor_lt_two_pow {x y n : Nat} (hx : x < 2 ^ n) (hy : y < 2 ^ n) :
    x ||| y < 2 ^ n :=
  Nat.bitwise_lt_two_pow hx hy

/- ==========================================================================
   Claim C1.
   ========================================================================== -/

/-- Claim C1, counterexample.  For the neutral snapshot the report built
by `ds3_build_input_report` carries 0xF2 (the low byte of 498) at byte
46, not the 0x62 the claim states; moreover the report differs from the
neutral template `g_ds3_report` at byte 40 while agreeing with it at
byte 31, so it is not "byte-identical except for byte 31". -/
theorem C1_counterexample :
    (ds3BuildInputReport neutralSnapshot).getD 46 0 = 0xF2 ∧
    (ds3BuildInputReport neutralSnapshot).getD 46 0 ≠ 0x62 ∧
    (ds3BuildInputReport neutralSnapshot).getD 31 0 = g_ds3_report.getD 31 0 ∧
    (ds3BuildInputReport neutralSnapshot).getD 40 0 ≠ g_ds3_report.getD 40 0 := by
  decide

/-- Claim C1, amended.  For the zero-state snapshot (sticks 128, no
buttons, motion zero, battery reported fully charged)
`ds3_build_input_report` emits the 49-byte report with bytes 0=0x01,
2=3=4=0, 6-9=0x80, 29=0x02, 30=0xEF, 31=0x12, bytes 40-47 equal to
`00 02 00 02 00 02 F2 01` and byte 48=0x02; it coincides with the
neutral template exactly outside bytes 30 and 40-47 (in particular
byte 31 matches the template). -/
theorem C1_amended :
    ds3BuildInputReport neutralSnapshot =
      [0x01, 0x00, 0x00, 0x00, 0x00, 0x00, 0x80, 0x80, 0x80, 0x80,
       0x00, 0x00, 0x00, 0x00, 0x00, 0x00, 0x00, 0x00,
       0x00, 0x00, 0x00, 0x00, 0x00, 0x00, 0x00, 0x00,
       0x00, 0x00, 0x00, 0x02, 0xEF, 0x12, 0x00, 0x00, 0x00, 0x00,
       0x33, 0x04, 0x77, 0x01,
       0x00, 0x02, 0x00, 0x02, 0x00, 0x02, 0xF2, 0x01, 0x02] ∧
    ((List.range 49).filter
      (fun i => decide
        ((ds3BuildInputReport neutralSnapshot).getD i 0 ≠ g_ds3_report.getD i 0))) =
      [30, 40, 42, 44, 45, 46, 47] := by
  decide

/- ==========================================================================
   Claim C10.
   ========================================================================== -/

/-- Claim C10.  For every snapshot, `ds3_build_input_report` leaves bytes
1, 5, 14-17, 26-28 and 32-35 at zero, writes the fixed bytes 36-39 =
`33 04 77 01`, byte 29 = 0x02, byte 31 = 0x12 and byte 48 = 0x02, and
the snapshot's `gyro_x` and `gyro_y` never influence any byte of the
report; only gyro Z is encoded, at bytes 46-47. -/
theorem C10_fixed_bytes (s : ControllerState) (a b : Int) :
    (ds3BuildInputReport s).getD 1 0 = 0 ∧
    (ds3BuildInputReport s).getD 5 0 = 0 ∧
    (ds3BuildInputReport s).getD 14 0 = 0 ∧
    (ds3BuildInputReport s).getD 15 0 = 0 ∧
    (ds3BuildInputReport s).getD 16 0 = 0 ∧
    (ds3BuildInputReport s).getD 17 0 = 0 ∧
    (ds3BuildInputReport s).getD 26 0 = 0 ∧
    (ds3BuildInputReport s).getD 27 0 = 0 ∧
    (ds3BuildInputReport s).getD 28 0 = 0 ∧
    (ds3BuildInputReport s).getD 32 0 = 0 ∧
    (ds3BuildInputReport s).getD 33 0 = 0 ∧
    (ds3BuildInputReport s).getD 34 0 = 0 ∧
    (ds3BuildInputReport s).getD 35 0 = 0 ∧
    (ds3BuildInputReport s).getD 36 0 = 0x33 ∧
    (ds3BuildInputReport s).getD 37 0 = 0x04 ∧
    (ds3BuildInputReport s).getD 38 0 = 0x77 ∧
    (ds3BuildInputReport s).getD 39 0 = 0x01 ∧
    (ds3BuildInputReport s).getD 29 0 = 0x02 ∧
    (ds3BuildInputReport s).getD 31 0 = 0x12 ∧
    (ds3BuildInputReport s).getD 48 0 = 0x02 ∧
    (ds3BuildInputReport s).getD 46 0
      = motionLo (clamp1023 (498 + Int.tdiv s.gyro_z 120)) ∧
    (ds3BuildInputReport s).getD 47 0
      = motionHi (clamp1023 (498 + Int.tdiv s.gyro_z 120)) ∧
    ds3BuildInputReport { s with gyro_x := a, gyro_y := b }
      = ds3BuildInputReport s := by
  refine ⟨rfl, rfl, rfl, rfl, rfl, rfl, rfl, rfl, rfl, rfl, rfl, rfl,
    rfl, rfl, rfl, rfl, rfl, rfl, rfl, rfl, rfl, rfl, rfl⟩

/- ==========================================================================
   Claim C4.
   ========================================================================== -/

/-- The snapshot of a controller charging at level 100 whose full flag is
clear, as the DualSense decoder produces it for battery status nibble 1
with level nibble 10. -/
def chargingSnapshot : ControllerState :=
  { neutralSnapshot with
    battery_level := 100, battery_charging := true, battery_full := false }

/-- Claim C4, counterexample.  A snapshot at battery level 100 with the
charging flag set but the full flag clear (which the decoder produces
for a DualSense reporting "charging" at 100%) yields byte 30 = 0xEE
(charging), not the claimed charged code 0xEF. -/
theorem C4_counterexample :
    chargingSnapshot.battery_level = 100 ∧
    chargingSnapshot.battery_charging = true ∧
    (ds3BuildInputReport chargingSnapshot).getD 30 0 = 0xEE ∧
    (ds3BuildInputReport chargingSnapshot).getD 30 0 ≠ 0xEF := by
  decide

/-- Claim C4, amended.  Byte 30 of every built DS3 input report is 0xEF
when the snapshot's full flag is set, 0xEE when the charging flag is set
and the full flag is clear (whatever the level, including 100), and
otherwise follows the level thresholds ≤5, ≤15, ≤35, ≤60, ≤85, >85.
In the companion conversion `ds3_update_battery_from_dualsense` of
`ds3.c`, which receives only a level and a charging flag, charging at
level ≥ 100 yields the charged code 0xEF and charging below 100 yields
the charging code 0xEE. -/
theorem C4_amended (s : ControllerState) (lvl : Nat) :
    (s.battery_full = true → (ds3BuildInputReport s).getD 30 0 = 0xEF) ∧
    (s.battery_full = false → s.battery_charging = true →
      (ds3BuildInputReport s).getD 30 0 = 0xEE) ∧
    (s.battery_full = false → s.battery_charging = false →
      ((s.battery_level ≤ 5 → (ds3BuildInputReport s).getD 30 0 = 0x00) ∧
       (5 < s.battery_level → s.battery_level ≤ 15 →
          (ds3BuildInputReport s).getD 30 0 = 0x01) ∧
       (15 < s.battery_level → s.battery_level ≤ 35 →
          (ds3BuildInputReport s).getD 30 0 = 0x02) ∧
       (35 < s.battery_level → s.battery_level ≤ 60 →
          (ds3BuildInputReport s).getD 30 0 = 0x03) ∧
       (60 < s.battery_level → s.battery_level ≤ 85 →
          (ds3BuildInputReport s).getD 30 0 = 0x04) ∧
       (85 < s.battery_level → (ds3BuildInputReport s).getD 30 0 = 0x05))) ∧
    (100 ≤ lvl → ds3UpdateBatteryFromDualsense lvl true = 0xEF) ∧
    (lvl < 100 → ds3UpdateBatteryFromDualsense lvl true = 0xEE) := by
  have hb : (ds3BuildInputReport s).getD 30 0 = ds3BatteryByte s := rfl
  rw [hb]
  refine ⟨?_, ?_, ?_, ?_, ?_⟩
  · intro hf; simp [ds3BatteryByte, hf]
  · intro hf hc; simp [ds3BatteryByte, hf, hc]
  · intro hf hc
    refine ⟨?_, ?_, ?_, ?_, ?_, ?_⟩ <;>
      (intros; simp only [ds3BatteryByte, hf, hc, Bool.false_eq_true, if_false];
       split_ifs <;> omega)
  · intro h100; simp [ds3UpdateBatteryFromDualsense, h100]
  · intro h100
    simp only [ds3UpdateBatteryFromDualsense, if_true]
    split_ifs <;> omega

/-- Claim C4, witness for the amended theorem at concrete inputs: the
neutral (fully charged) snapshot yields 0xEF and charging at level 50
yields 0xEE. -/
theorem C4_witness :
    (ds3BuildInputReport neutralSnapshot).getD 30 0 = 0xEF ∧
    ds3UpdateBatteryFromDualsense 50 true = 0xEE :=
  ⟨(C4_amended neutralSnapshot 50).1 rfl,
   (C4_amended neutralSnapshot 50).2.2.2.2 (by omega)⟩

/- ==========================================================================
   Claim C2.
   ========================================================================== -/

/-- Claim C2.  After a SET_REPORT 0xF5 whose payload has at least 8
bytes, GET_REPORT 0xF5 returns a 64-byte report whose bytes 2-7 equal
the payload's bytes 2-7 and whose every other byte is the byte report
0xF5 held before the SET. -/
theorem C2_set_then_get (st : DS3FeatureState) (data : List Nat)
    (hlen : 8 ≤ data.length) (hf5 : st.report_f5.length = 64) :
    ∃ r, ds3GetFeatureReport (ds3HandleSetReport st 0xF5 data) 0xF5 = some r ∧
      r.length = 64 ∧
      (∀ i, 2 ≤ i → i < 8 → r.getD i 0 = data.getD i 0) ∧
      (∀ i, i < 64 → i < 2 ∨ 8 ≤ i → r.getD i 0 = st.report_f5.getD i 0) := by
  refine ⟨setBytes st.report_f5 2
      [data.getD 2 0, data.getD 3 0, data.getD 4 0,
       data.getD 5 0, data.getD 6 0, data.getD 7 0], ?_, ?_, ?_, ?_⟩
  · simp [ds3HandleSetReport, ds3GetFeatureReport, hlen]
  · rw [length_setBytes, hf5]
  · intro i h2 h8
    obtain ⟨k, rfl⟩ : ∃ k, i = 2 + k := ⟨i - 2, by omega⟩
    rw [getD_setBytes_mem _ _ _ _ (by simp; omega) (by simp [hf5])]
    have hk : k < 6 := by omega
    interval_cases k <;> rfl
  · intro i h64 hout
    rcases hout with hlt | hge
    · exact getD_setBytes_lt _ _ _ _ hlt
    · exact getD_setBytes_ge _ _ _ _ (by simp; omega)

/-- Claim C2, witness: the SET payload `01 00 AA BB CC DD EE FF` applied
to the initial feature-report state. -/
theorem C2_witness :
    ∃ r, ds3GetFeatureReport
        (ds3HandleSetReport ds3FeatureInit 0xF5
          [0x01, 0x00, 0xAA, 0xBB, 0xCC, 0xDD, 0xEE, 0xFF]) 0xF5 = some r ∧
      r.length = 64 ∧
      (∀ i, 2 ≤ i → i < 8 →
        r.getD i 0 = [0x01, 0x00, 0xAA, 0xBB, 0xCC, 0xDD, 0xEE, 0xFF].getD i 0) ∧
      (∀ i, i < 64 → i < 2 ∨ 8 ≤ i →
        r.getD i 0 = ds3FeatureInit.report_f5.getD i 0) :=
  C2_set_then_get ds3FeatureInit _ (by decide) (by decide)

/- ==========================================================================
   Claim C3.
   ========================================================================== -/

theorem hexVal_hexDigitChar : ∀ d, d < 16 → hexVal (hexDigitChar d) = some d := by
  decide

theorem hexDigitChar_ne_colon : ∀ d, d < 16 → hexDigitChar d ≠ ':' := by
  decide

theorem parseHexByte_byteToHexChars (b : Nat) (h : b < 256) :
    parseHexByte (byteToHexChars b) = some b := by
  have h1 : b / 16 < 16 := by omega
  have h2 : b % 16 < 16 := by omega
  simp [byteToHexChars, parseHexByte,
    hexVal_hexDigitChar _ h1, hexVal_hexDigitChar _ h2]
  omega

theorem not_mem_colon_byteToHexChars (b : Nat) (h : b < 256) :
    (':' : Char) ∉ byteToHexChars b := by
  have h1 : b / 16 < 16 := by omega
  have h2 : b % 16 < 16 := by omega
  intro hm
  rcases List.mem_pair.mp hm with e | e
  · exact hexDigitChar_ne_colon _ h1 e.symm
  · exact hexDigitChar_ne_colon _ h2 e.symm

theorem splitColon_append : ∀ (l1 : List Char), (':' : Char) ∉ l1 →
    ∀ (l2 acc : List Char),
    splitColon (l1 ++ ':' :: l2) acc = (acc.reverse ++ l1) :: splitColon l2 []
  | [], _, l2, acc => by simp [splitColon]
  | c :: cs, h, l2, acc => by
      have hc : c ≠ ':' := fun e => h (by simp [e])
      have hcs : (':' : Char) ∉ cs := fun hm => h (by simp [hm])
      rw [List.cons_append, splitColon, if_neg hc,
          splitColon_append cs hcs l2 (c :: acc)]
      simp

theorem splitColon_nosep : ∀ (l1 : List Char), (':' : Char) ∉ l1 →
    ∀ (acc : List Char), splitColon l1 acc = [acc.reverse ++ l1]
  | [], _, acc => by simp [splitColon]
  | c :: cs, h, acc => by
      have hc : c ≠ ':' := fun e => h (by simp [e])
      have hcs : (':' : Char) ∉ cs := fun hm => h (by simp [hm])
      rw [splitColon, if_neg hc, splitColon_nosep cs hcs (c :: acc)]
      simp

theorem parseMac_macToChars (m0 m1 m2 m3 m4 m5 : Nat)
    (h0 : m0 < 256) (h1 : m1 < 256) (h2 : m2 < 256)
    (h3 : m3 < 256) (h4 : m4 < 256) (h5 : m5 < 256) :
    parseMac (macToChars [m0, m1, m2, m3, m4, m5]) =
      some [m0, m1, m2, m3, m4, m5] := by
  have e : macToChars [m0, m1, m2, m3, m4, m5] =
      byteToHexChars m0 ++ ':' :: (byteToHexChars m1 ++ ':' :: (byteToHexChars m2 ++
        ':' :: (byteToHexChars m3 ++ ':' :: (byteToHexChars m4 ++ ':' ::
          byteToHexChars m5)))) := by
    simp [macToChars, List.append_assoc]
  rw [parseMac, e]
  rw [splitColon_append _ (not_mem_colon_byteToHexChars m0 h0) _ _,
      splitColon_append _ (not_mem_colon_byteToHexChars m1 h1) _ _,
      splitColon_append _ (not_mem_colon_byteToHexChars m2 h2) _ _,
      splitColon_append _ (not_mem_colon_byteToHexChars m3 h3) _ _,
      splitColon_append _ (not_mem_colon_byteToHexChars m4 h4) _ _,
      splitColon_nosep _ (not_mem_colon_byteToHexChars m5 h5) _]
  simp [parseHexByte_byteToHexChars _ h0, parseHexByte_byteToHexChars _ h1,
    parseHexByte_byteToHexChars _ h2, parseHexByte_byteToHexChars _ h3,
    parseHexByte_byteToHexChars _ h4, parseHexByte_byteToHexChars _ h5]

/-- Claim C3.  Whenever a SET_REPORT 0xF5 with an 8-byte-or-longer
payload arrives, the `ds3.c` handler writes the pairing file as
line-oriented KEY=VALUE entries — two comment lines, then
`PS3_MAC=<payload bytes 2-7 in hex-colon notation>` and
`LOCAL_MAC=<stored local MAC>` — and stores the MAC into report 0xF5
bytes 2-7; loading that file back (as `ds3_load_pairing` does at
startup) pre-populates bytes 2-7 of any report-0xF5 buffer with the
persisted PS3 MAC. -/
theorem C3_pairing_persistence (st : DS3PairingState)
    (p0 p1 m0 m1 m2 m3 m4 m5 : Nat) (rest : List Nat) (f5load : List Nat)
    (h0 : m0 < 256) (h1 : m1 < 256) (h2 : m2 < 256)
    (h3 : m3 < 256) (h4 : m4 < 256) (h5 : m5 < 256) :
    (ds3HandleSetReportPairing st
        (p0 :: p1 :: m0 :: m1 :: m2 :: m3 :: m4 :: m5 :: rest)).pairing_file =
      some [("# RosettaPad Pairing Configuration").toList,
            ("# Auto-generated during USB pairing").toList,
            ("PS3_MAC=").toList ++ macToChars [m0, m1, m2, m3, m4, m5],
            ("LOCAL_MAC=").toList ++ st.local_mac] ∧
    (ds3HandleSetReportPairing st
        (p0 :: p1 :: m0 :: m1 :: m2 :: m3 :: m4 :: m5 :: rest)).report_f5 =
      setBytes st.report_f5 2 [m0, m1, m2, m3, m4, m5] ∧
    ds3LoadPairing
        [("# RosettaPad Pairing Configuration").toList,
         ("# Auto-generated during USB pairing").toList,
         ("PS3_MAC=").toList ++ macToChars [m0, m1, m2, m3, m4, m5],
         ("LOCAL_MAC=").toList ++ st.local_mac] f5load =
      setBytes f5load 2 [m0, m1, m2, m3, m4, m5] := by
  have hdata :
      (8 : Nat) ≤ (p0 :: p1 :: m0 :: m1 :: m2 :: m3 :: m4 :: m5 :: rest).length := by
    simp
  refine ⟨?_, ?_, ?_⟩
  · simp [ds3HandleSetReportPairing, ds3SavePairing, hdata]
  · simp [ds3HandleSetReportPairing, hdata]
  · have hl1 : ∀ f5 : List Nat,
        ds3LoadPairingLine f5 ("# RosettaPad Pairing Configuration").toList = f5 :=
      fun _ => rfl
    have hl2 : ∀ f5 : List Nat,
        ds3LoadPairingLine f5 ("# Auto-generated during USB pairing").toList = f5 :=
      fun _ => rfl
    have hl3 : ∀ f5 : List Nat,
        ds3LoadPairingLine f5
          (("PS3_MAC=").toList ++ macToChars [m0, m1, m2, m3, m4, m5]) =
          setBytes f5 2 [m0, m1, m2, m3, m4, m5] := by
      intro f5
      have hred : ds3LoadPairingLine f5
          (("PS3_MAC=").toList ++ macToChars [m0, m1, m2, m3, m4, m5]) =
          (match parseMac (macToChars [m0, m1, m2, m3, m4, m5]) with
           | some mac => setBytes f5 2 mac
           | none => f5) := rfl
      rw [hred, parseMac_macToChars m0 m1 m2 m3 m4 m5 h0 h1 h2 h3 h4 h5]
    have hl4 : ∀ f5 : List Nat,
        ds3LoadPairingLine f5 (("LOCAL_MAC=").toList ++ st.local_mac) = f5 :=
      fun _ => rfl
    simp only [ds3LoadPairing, List.foldl_cons, List.foldl_nil]
    rw [hl1, hl2, hl3, hl4]

/-- Initial `report_f5` of the `ds3.c` variant (lines 53-60): report ID
0xF5 first, PS3 MAC bytes 2-7 zero while unpaired. -/
def ds3c_report_f5_init : List Nat :=
  [0xF5, 0x00, 0x00, 0x00, 0x00, 0x00, 0x00, 0x00,
   0x00, 0x00, 0x00, 0x03, 0x50, 0x81, 0xD8, 0x01,
   0x8A, 0x13, 0x00, 0x00, 0x00, 0x00, 0x04, 0x00,
   0x02, 0x02, 0x02, 0x02, 0x00, 0x00, 0x00, 0x04,
   0x04, 0x04, 0x04, 0x00, 0x00, 0x04, 0x00, 0x01,
   0x02, 0x07, 0x00, 0x17, 0x00, 0x00, 0x00, 0x00,
   0x00, 0x00, 0x00, 0x00, 0x00, 0x00, 0x00, 0x00,
   0x00, 0x00, 0x00, 0x00, 0x00, 0x00, 0x00, 0x00]

/-- The pairing state at `ds3.c` start: local MAC string
"00:00:00:00:00:00", no PS3 MAC, no file written. -/
def ds3cPairingInit : DS3PairingState :=
  { report_f5 := ds3c_report_f5_init
    local_mac := ("00:00:00:00:00:00").toList
    ps3_mac := []
    pairing_file := none
    pairing_complete := false }

/-- Claim C3, witness: the pairing handler applied at the initial state
to the payload `01 00 AA BB CC DD EE FF`. -/
theorem C3_witness :
    (ds3HandleSetReportPairing ds3cPairingInit
        [0x01, 0x00, 0xAA, 0xBB, 0xCC, 0xDD, 0xEE, 0xFF]).pairing_file =
      some [("# RosettaPad Pairing Configuration").toList,
            ("# Auto-generated during USB pairing").toList,
            ("PS3_MAC=").toList ++ macToChars [0xAA, 0xBB, 0xCC, 0xDD, 0xEE, 0xFF],
            ("LOCAL_MAC=").toList ++ ds3cPairingInit.local_mac] ∧
    (ds3HandleSetReportPairing ds3cPairingInit
        [0x01, 0x00, 0xAA, 0xBB, 0xCC, 0xDD, 0xEE, 0xFF]).report_f5 =
      setBytes ds3cPairingInit.report_f5 2 [0xAA, 0xBB, 0xCC, 0xDD, 0xEE, 0xFF] ∧
    ds3LoadPairing
        [("# RosettaPad Pairing Configuration").toList,
         ("# Auto-generated during USB pairing").toList,
         ("PS3_MAC=").toList ++ macToChars [0xAA, 0xBB, 0xCC, 0xDD, 0xEE, 0xFF],
         ("LOCAL_MAC=").toList ++ ds3cPairingInit.local_mac] ds3c_report_f5_init =
      setBytes ds3c_report_f5_init 2 [0xAA, 0xBB, 0xCC, 0xDD, 0xEE, 0xFF] :=
  C3_pairing_persistence ds3cPairingInit 0x01 0x00 0xAA 0xBB 0xCC 0xDD 0xEE 0xFF
    [] ds3c_report_f5_init (by decide) (by decide) (by decide)
    (by decide) (by decide) (by decide)

/- ==========================================================================
   Claim C5.
   ========================================================================== -/

/-- The deadzone property of the claim: a stick output is 128 whenever
the raw reading is within the symmetric ±6 window around 128 and equals
the raw reading when outside it. -/
def stickOk (raw v : Nat) : Prop :=
  (128 - 6 ≤ raw ∧ raw ≤ 128 + 6 → v = 128) ∧
  (¬ (128 - 6 ≤ raw ∧ raw ≤ 128 + 6) → v = raw)

theorem stickOk_applyDeadzone (raw : Nat) : stickOk raw (applyDeadzone raw) := by
  unfold stickOk applyDeadzone
  constructor
  · intro h; rw [if_pos h]
  · intro h; rw [if_neg h]

theorem dpadButtons_lt (d : Nat) : dpadButtons d < 2 ^ 19 := by
  unfold dpadButtons
  split <;> decide

theorem dualsenseButtons_lt (b1 b2 b3 : Nat) : dualsenseButtons b1 b2 b3 < 2 ^ 19 := by
  unfold dualsenseButtons
  repeat' apply lor_lt_two_pow
  all_goals first
    | exact dpadButtons_lt _
    | (split <;> decide)

theorem touchStickOverride_inactive (ts : TouchMapState) (buf : List Nat)
    (rx ry : Nat) (h : ¬ touchActive buf 34) :
    (touchStickOverride ts buf rx ry).2.1 = rx ∧
    (touchStickOverride ts buf rx ry).2.2 = ry := by
  unfold touchStickOverride
  rw [if_neg h]
  split <;> exact ⟨rfl, rfl⟩

/-- The do-nothing calibration record used when Feature Report 0x05
could not be read (`g_ds_calibration.valid = 0`). -/
def noCalibration : DSCalibration :=
  { gyro_pitch := ⟨0, 0, 0⟩, gyro_yaw := ⟨0, 0, 0⟩, gyro_roll := ⟨0, 0, 0⟩
    accel_x := ⟨0, 0, 0⟩, accel_y := ⟨0, 0, 0⟩, accel_z := ⟨0, 0, 0⟩
    valid := false }

/-- A 38-byte BT-format buffer with the raw right-stick X reading 200
(outside the deadzone) and touch contact 0 active at the origin. -/
def cexBuf : List Nat :=
  [0x31, 0, 128, 128, 200, 128, 0, 0, 0, 8, 0, 0,
   0, 0, 0, 0, 0, 0, 0, 0, 0, 0, 0, 0, 0, 0, 0, 0, 0, 0, 0, 0, 0, 0,
   0, 0, 0, 0]

/-- Claim C5, counterexample.  The decoder accepts `cexBuf`, whose raw
right-stick X reading is 200 — outside the ±6 deadzone window — yet the
produced snapshot carries right-stick X = 128, because the active touch
contact triggers the touchpad-as-right-stick override.  The value is
neither the raw reading passed through nor a deadzone snap. -/
theorem C5_counterexample :
    ((dualsenseProcessInput noCalibration touchMapInit cexBuf).2.map
        (fun st => st.right_stick_x)) = some 128 ∧
    cexBuf.getD 4 0 = 200 ∧
    ¬ (128 - 6 ≤ cexBuf.getD 4 0 ∧ cexBuf.getD 4 0 ≤ 128 + 6) ∧
    (128 : Nat) ≠ cexBuf.getD 4 0 := by
  decide

/-- Claim C5, amended.  Every buffer the decoder accepts produces a
snapshot whose button bitset only contains bits from the 19-button
vocabulary; the left-stick values always satisfy the ±6-deadzone
property (snapped to 128 inside the window, passed through outside), and
the right-stick values satisfy it whenever touch contact 0 is inactive
(no touch block in the buffer, or the contact's inactive bit set) — when
the contact is active the touchpad-as-right-stick feature overrides the
right stick instead. -/
theorem C5_amended (calib : DSCalibration) (ts : TouchMapState) (buf : List Nat)
    (st : ControllerState)
    (hacc : (dualsenseProcessInput calib ts buf).2 = some st) :
    st.buttons < 2 ^ 19 ∧
    stickOk (buf.getD 2 0) st.left_stick_x ∧
    stickOk (buf.getD 3 0) st.left_stick_y ∧
    (¬ touchActive buf 34 →
      stickOk (buf.getD 4 0) st.right_stick_x ∧
      stickOk (buf.getD 5 0) st.right_stick_y) := by
  unfold dualsenseProcessInput at hacc
  by_cases hrej : buf.length < 12 ∨ buf.getD 0 0 ≠ 0x31
  · rw [if_pos hrej] at hacc
    simp at hacc
  · rw [if_neg hrej] at hacc
    replace hacc := Option.some.inj hacc
    subst hacc
    refine ⟨dualsenseButtons_lt _ _ _, stickOk_applyDeadzone _,
      stickOk_applyDeadzone _, ?_⟩
    intro hno
    obtain ⟨e1, e2⟩ := touchStickOverride_inactive ts buf
      (applyDeadzone (buf.getD 4 0)) (applyDeadzone (buf.getD 5 0)) hno
    constructor
    · show stickOk _ (touchStickOverride ts buf
        (applyDeadzone (buf.getD 4 0)) (applyDeadzone (buf.getD 5 0))).2.1
      rw [e1]; exact stickOk_applyDeadzone _
    · show stickOk _ (touchStickOverride ts buf
        (applyDeadzone (buf.getD 4 0)) (applyDeadzone (buf.getD 5 0))).2.2
      rw [e2]; exact stickOk_applyDeadzone _

/-- The 12-byte witness buffer: raw right-stick X 200, dpad neutral, no
touch block. -/
def witnessBuf : List Nat :=
  [0x31, 0, 128, 128, 200, 128, 0, 0, 0, 8, 0, 0]

/-- The snapshot the decoder produces for `witnessBuf`. -/
def witnessSnapshot : ControllerState :=
  { buttons := 0
    left_stick_x := 128, left_stick_y := 128
    right_stick_x := 200, right_stick_y := 128
    left_trigger := 0, right_trigger := 0
    accel_x := 0, accel_y := 0, accel_z := 0
    gyro_x := 0, gyro_y := 0, gyro_z := 0
    touch0_active := false, touch0_x := 0, touch0_y := 0
    touch1_active := false, touch1_x := 0, touch1_y := 0
    battery_level := 0, battery_charging := false, battery_full := false }

/-- Claim C5, witness for the amended theorem at a concrete accepted
buffer without an active touch contact. -/
theorem C5_witness :
    (dualsenseProcessInput noCalibration touchMapInit witnessBuf).2 =
      some witnessSnapshot ∧
    witnessSnapshot.buttons < 2 ^ 19 ∧
    stickOk (witnessBuf.getD 2 0) witnessSnapshot.left_stick_x ∧
    stickOk (witnessBuf.getD 3 0) witnessSnapshot.left_stick_y ∧
    stickOk (witnessBuf.getD 4 0) witnessSnapshot.right_stick_x ∧
    stickOk (witnessBuf.getD 5 0) witnessSnapshot.right_stick_y :=
  ⟨by decide,
   (C5_amended noCalibration touchMapInit witnessBuf witnessSnapshot (by decide)).1,
   (C5_amended noCalibration touchMapInit witnessBuf witnessSnapshot (by decide)).2.1,
   (C5_amended noCalibration touchMapInit witnessBuf witnessSnapshot (by decide)).2.2.1,
   ((C5_amended noCalibration touchMapInit witnessBuf witnessSnapshot
      (by decide)).2.2.2 (by decide)).1,
   ((C5_amended noCalibration touchMapInit witnessBuf witnessSnapshot
      (by decide)).2.2.2 (by decide)).2⟩

/- ==========================================================================
   Claim C6.
   ========================================================================== -/

theorem ds3ApplyLeds_rumble (data : List Nat) (o : ControllerOutput) :
    (ds3ApplyLeds data o).rumble_right = o.rumble_right ∧
    (ds3ApplyLeds data o).rumble_left = o.rumble_left := by
  unfold ds3ApplyLeds
  constructor <;> (split <;> first | rfl | (split <;> rfl))

theorem parse_output_rumble (data : List Nat) (prev : ControllerOutput)
    (h : ¬ data.length < 6) :
    (ds3ParseOutputReport data prev).rumble_right =
      (if data.getD 3 0 ≠ 0 then 0xFF else 0x00) ∧
    (ds3ParseOutputReport data prev).rumble_left = data.getD 5 0 := by
  unfold ds3ParseOutputReport
  rw [if_neg h]
  exact ⟨(ds3ApplyLeds_rumble _ _).1, (ds3ApplyLeds_rumble _ _).2⟩

/-- Claim C6.  For every DS3 output report of length at least 6, the
parser sets the right (weak) motor to 0xFF exactly when byte 3 is
non-zero and the left (strong) motor to the value of byte 5; hence
parsing the output command built from a rumble pair `(left, right)`
yields the pair `(left, right != 0 ? 0xFF : 0x00)`. -/
theorem C6_rumble_parse (data : List Nat) (prev : ControllerOutput)
    (left right : Nat) (h : 6 ≤ data.length) :
    ((ds3ParseOutputReport data prev).rumble_right =
      if data.getD 3 0 ≠ 0 then 0xFF else 0x00) ∧
    (ds3ParseOutputReport data prev).rumble_left = data.getD 5 0 ∧
    (ds3ParseOutputReport (ds3RumbleCommand left right) prev).rumble_left = left ∧
    ((ds3ParseOutputReport (ds3RumbleCommand left right) prev).rumble_right =
      if right ≠ 0 then 0xFF else 0x00) := by
  obtain ⟨hr, hl⟩ := parse_output_rumble data prev (by omega)
  obtain ⟨hr2, hl2⟩ := parse_output_rumble (ds3RumbleCommand left right) prev
    (by simp [ds3RumbleCommand])
  refine ⟨hr, hl, ?_, ?_⟩
  · rw [hl2]; rfl
  · rw [hr2]
    by_cases hw : right = 0 <;> simp [ds3RumbleCommand, hw]

/-- Claim C6, witness: the report `01 00 96 01 96 80` parsed over the
initial output state, and the command built from the pair (0x80, 0x01). -/
theorem C6_witness :
    ((ds3ParseOutputReport [0x01, 0x00, 0x96, 0x01, 0x96, 0x80]
        controllerOutputInit).rumble_right =
      if ([0x01, 0x00, 0x96, 0x01, 0x96, 0x80] : List Nat).getD 3 0 ≠ 0
      then 0xFF else 0x00) ∧
    (ds3ParseOutputReport [0x01, 0x00, 0x96, 0x01, 0x96, 0x80]
        controllerOutputInit).rumble_left =
      ([0x01, 0x00, 0x96, 0x01, 0x96, 0x80] : List Nat).getD 5 0 ∧
    (ds3ParseOutputReport (ds3RumbleCommand 0x80 0x01)
        controllerOutputInit).rumble_left = 0x80 ∧
    ((ds3ParseOutputReport (ds3RumbleCommand 0x80 0x01)
        controllerOutputInit).rumble_right =
      if (0x01 : Nat) ≠ 0 then 0xFF else 0x00) :=
  C6_rumble_parse [0x01, 0x00, 0x96, 0x01, 0x96, 0x80] controllerOutputInit
    0x80 0x01 (by decide)

/- ==========================================================================
   Claim C7.
   ========================================================================== -/

/-- The interrupt-channel output packet of the claim:
`A2 01 00 00 01 00 80 00 00 00 02`. -/
def btOutputPacket : List Nat :=
  [0xA2, 0x01, 0x00, 0x00, 0x01, 0x00, 0x80, 0x00, 0x00, 0x00, 0x02]

/-- Claim C7, counterexample.  Receiving the packet on the BT interrupt
channel sets rumble_right = 0xFF and rumble_left = 0x80, but
`process_interrupt` never parses the player-LED byte: starting from the
initial output state, `player_leds` stays 0, not the claimed 0x04. -/
theorem C7_counterexample :
    (ps3BtProcessInterrupt btOutputPacket controllerOutputInit).rumble_right = 0xFF ∧
    (ps3BtProcessInterrupt btOutputPacket controllerOutputInit).rumble_left = 0x80 ∧
    (ps3BtProcessInterrupt btOutputPacket controllerOutputInit).player_leds = 0x00 ∧
    (ps3BtProcessInterrupt btOutputPacket controllerOutputInit).player_leds ≠ 0x04 := by
  decide

/-- Claim C7, amended.  Receiving
`A2 01 00 00 01 00 80 00 00 00 02` on the BT interrupt channel leaves
the shared output state with rumble_right = 0xFF and rumble_left = 0x80
and every other field — `player_leds` included — unchanged: the BT
interrupt handler parses only the two rumble bytes, and the DS3-to-
DualSense player-LED mapping (0x02 to 0x04 for player 1) lives only in
`ds3_parse_output_report` on the USB output path. -/
theorem C7_amended (prev : ControllerOutput) :
    ps3BtProcessInterrupt btOutputPacket prev =
      { prev with rumble_right := 0xFF, rumble_left := 0x80 } ∧
    (ps3BtProcessInterrupt btOutputPacket prev).player_leds = prev.player_leds ∧
    ds3PlayerLedMap 0x02 = 0x04 := by
  unfold ps3BtProcessInterrupt
  rw [if_pos (by decide)]
  exact ⟨rfl, rfl, rfl⟩

/- ==========================================================================
   Claim C8.
   ========================================================================== -/

/-- Claim C8, counterexample.  Two violations.  First, a USB ENABLE
arriving 100 ms after the Standby-to-Waking transition moves the power
state to Active with no debounce check.  Second, the power state can
move from Standby to Active directly: after a home press (Waking), a
USB ENABLE during the seconds-long wake attempt (Active) and a USB
SUSPEND 2.1 s later (Standby), the still-running `system_exit_standby`
finishes and its unconditional final
`system_set_state(SYSTEM_STATE_ACTIVE)` fires from Standby. -/
theorem C8_counterexample :
    powerStep ⟨SystemState.waking, 8000⟩ (PowerEvent.usbEnable 8100) =
      ⟨SystemState.active, 8100⟩ ∧
    powerStep ⟨SystemState.waking, 8000⟩ (PowerEvent.usbEnable 8100) ≠
      ⟨SystemState.waking, 8000⟩ ∧
    8100 - 8000 < 2000 ∧
    List.foldl powerStep ⟨SystemState.active, 0⟩
      [PowerEvent.suspendEvt 2000, PowerEvent.homePress 4000,
       PowerEvent.usbEnable 4100, PowerEvent.suspendEvt 6200] =
      ⟨SystemState.standby, 6200⟩ ∧
    powerStep ⟨SystemState.standby, 6200⟩ (PowerEvent.wakeDone 6300) =
      ⟨SystemState.active, 6300⟩ := by
  decide

/-- Claim C8, amended.  The requested transitions Active-to-Standby
(USB SUSPEND) and Standby-to-Waking (home press) are ignored when the
previous state change happened less than 2 seconds earlier; the
Waking-to-Active completion is exempt from the debounce.  From Standby,
neither a USB SUSPEND, nor a home press (which yields Waking), nor a
USB ENABLE moves the state to Active — but the unconditional completion
of an in-flight `system_exit_standby` does take Standby directly to
Active, so the no-direct-transition half of the original claim holds
only for the other three events. -/
theorem C8_amended (c : PowerCtx) (now now2 : Nat)
    (hdeb : now - c.lastChange < 2000) :
    powerStep c (PowerEvent.suspendEvt now) = c ∧
    powerStep c (PowerEvent.homePress now) = c ∧
    (c.state = SystemState.standby →
      (powerStep c (PowerEvent.suspendEvt now2)).state ≠ SystemState.active ∧
      (powerStep c (PowerEvent.homePress now2)).state ≠ SystemState.active ∧
      (powerStep c (PowerEvent.usbEnable now2)).state ≠ SystemState.active ∧
      powerStep c (PowerEvent.wakeDone now2) = ⟨SystemState.active, now2⟩) := by
  refine ⟨?_, ?_, ?_⟩
  · simp only [powerStep]; rw [if_pos hdeb]
  · simp only [powerStep]; rw [if_pos hdeb]
  · intro hs
    refine ⟨?_, ?_, ?_, rfl⟩ <;> (simp only [powerStep]; split_ifs <;> simp_all)

/-- Claim C8, witness: from Standby 100 ms after the last change, both
requests are ignored; from Standby the suspend, home-press and
USB-ENABLE events cannot reach Active, while the wake completion does. -/
theorem C8_witness :
    powerStep ⟨SystemState.standby, 5000⟩ (PowerEvent.suspendEvt 5100) =
      ⟨SystemState.standby, 5000⟩ ∧
    powerStep ⟨SystemState.standby, 5000⟩ (PowerEvent.homePress 5100) =
      ⟨SystemState.standby, 5000⟩ ∧
    ((⟨SystemState.standby, 5000⟩ : PowerCtx).state = SystemState.standby →
      (powerStep ⟨SystemState.standby, 5000⟩
        (PowerEvent.suspendEvt 9000)).state ≠ SystemState.active ∧
      (powerStep ⟨SystemState.standby, 5000⟩
        (PowerEvent.homePress 9000)).state ≠ SystemState.active ∧
      (powerStep ⟨SystemState.standby, 5000⟩
        (PowerEvent.usbEnable 9000)).state ≠ SystemState.active ∧
      powerStep ⟨SystemState.standby, 5000⟩ (PowerEvent.wakeDone 9000) =
        ⟨SystemState.active, 9000⟩) :=
  C8_amended ⟨SystemState.standby, 5000⟩ 5100 9000 (by decide)

/- ==========================================================================
   Claim C9.
   ========================================================================== -/

theorem btRunFrom_lt (c k : Nat) (h : c + k < 50) :
    btRunFrom c k = ⟨BtState.ready, c + k⟩ := by
  induction k with
  | zero => rfl
  | succ n ih =>
      rw [btRunFrom, ih (by omega)]
      have hn : ¬ (50 ≤ c + n + 1) := by omega
      simp [btLoopStep, btLoopTail, hn]
      omega

theorem btRunFrom_enabled (c k : Nat) (hk : 1 ≤ k) (h : 50 ≤ c + k) :
    btRunFrom c k = ⟨BtState.enabled, 0⟩ := by
  induction k with
  | zero => omega
  | succ n ih =>
      by_cases h0 : n = 0
      · subst h0
        have h50 : 50 ≤ c + 1 := by omega
        show btLoopStep (btRunFrom c 0) false false false = _
        simp [btRunFrom, btLoopStep, btLoopTail, h50]
      · by_cases hge : 50 ≤ c + n
        · rw [btRunFrom, ih (by omega) hge]
          rfl
        · have hlt : c + n < 50 := by omega
          rw [btRunFrom, btRunFrom_lt c n hlt]
          have h50 : 50 ≤ c + n + 1 := by omega
          simp [btLoopStep, btLoopTail, h50]

theorem btRunFrom_enabled_iff (c k : Nat) :
    (btRunFrom c k).state = BtState.enabled ↔ (1 ≤ k ∧ 50 ≤ c + k) := by
  constructor
  · intro h
    by_cases hk : 1 ≤ k
    · refine ⟨hk, ?_⟩
      by_contra hlt
      push_neg at hlt
      rw [btRunFrom_lt c k hlt] at h
      simp at h
    · have hk0 : k = 0 := by omega
      subst hk0
      simp [btRunFrom] at h
  · intro h
    rw [btRunFrom_enabled c k h.1 h.2]

/-- The loop context after a first Ready episode of 40 iterations with
no 0xF4 (static counter at 40), then an 0xF4 enable, then a
socket-error disconnect, then a reconnect: the static `ready_count`
survives all three, so the re-entered Ready episode starts at 41. -/
def btStaleReady : BtLoopCtx :=
  btConnectReady
    (btLoopStep (btLoopStep (btRunFrom 0 40) true false false) false true false)

/-- Claim C9, counterexample.  A reachable Ready episode with a stale
counter: after 40 Ready iterations, an 0xF4 enable, an error disconnect
and a reconnect, the episode re-enters Ready with the counter at 41 and
auto-enables after 9 further iterations — 90 ms, not 500 ms — without
any SET_REPORT 0xF4.  So the state machine does not advance to Enabled
"exactly when 0xF4 arrives or 500 ms elapse in Ready". -/
theorem C9_counterexample :
    btStaleReady = ⟨BtState.ready, 41⟩ ∧
    btRunFrom 41 0 = btStaleReady ∧
    (btRunFrom 41 8).state = BtState.ready ∧
    (btRunFrom 41 9).state = BtState.enabled ∧
    9 * btLoopPeriodMs = 90 ∧
    90 < 500 := by
  decide

/-- Claim C9, amended.  From the Ready state the BT state machine
advances to Enabled exactly when the PS3 sends SET_REPORT 0xF4 over the
control channel or when the static ready counter reaches 50.  The
counter ticks once per 10 ms loop iteration and is not reset when Ready
is re-entered (a reconnect preserves it), so the automatic path takes
500 ms in Ready exactly for an episode starting with the counter at 0 —
the thread's first; an episode re-entered with a stale counter `c`
auto-enables already after `50 - c` iterations. -/
theorem C9_amended (l : BtLoopCtx) (f4 : Bool) (c k j : Nat)
    (hready : l.state = BtState.ready) :
    ((btLoopStep l f4 false false).state = BtState.enabled ↔
      (f4 = true ∨ 50 ≤ l.readyCount + 1)) ∧
    btConnectReady ⟨BtState.disconnected, c⟩ = ⟨BtState.ready, c⟩ ∧
    ((btRunFrom c k).state = BtState.enabled ↔ (1 ≤ k ∧ 50 ≤ c + k)) ∧
    ((btRunFrom 0 j).state = BtState.enabled ↔ 50 ≤ j) ∧
    50 * btLoopPeriodMs = 500 := by
  refine ⟨?_, rfl, btRunFrom_enabled_iff c k, ?_, rfl⟩
  · obtain ⟨st, cnt⟩ := l
    change st = BtState.ready at hready
    subst hready
    by_cases h50 : 50 ≤ cnt + 1
    · simp [btLoopStep, btLoopTail, h50]
    · simp only [btLoopStep, btLoopTail]
      rw [if_neg h50]
      cases f4 <;> simp [h50]
  · rw [btRunFrom_enabled_iff 0 j]
    omega

/-- Claim C9, witness: a fresh Ready state receiving 0xF4 enables at
once; the stale episode with counter 41 enables at iteration 9; the
fresh run enables exactly at iteration 50, the 500 ms timeout. -/
theorem C9_witness :
    ((btLoopStep ⟨BtState.ready, 0⟩ true false false).state = BtState.enabled ↔
      (true = true ∨ 50 ≤ (⟨BtState.ready, 0⟩ : BtLoopCtx).readyCount + 1)) ∧
    btConnectReady ⟨BtState.disconnected, 41⟩ = ⟨BtState.ready, 41⟩ ∧
    ((btRunFrom 41 9).state = BtState.enabled ↔ (1 ≤ 9 ∧ 50 ≤ 41 + 9)) ∧
    ((btRunFrom 0 50).state = BtState.enabled ↔ 50 ≤ 50) ∧
    50 * btLoopPeriodMs = 500 :=
  C9_amended ⟨BtState.ready, 0⟩ true 41 9 50 rfl

end RosettaPad
